import Mathlib

/-!
Verification development for the async SFTP adaptation layer
(`src/sftp.rs`): a thin call-forwarding layer that bridges a blocking
remote-filesystem client (`ssh2::Sftp` / `ssh2::File`) into a cooperative
asynchronous execution model via a readiness reactor (`async_io::Async`).

The blocking collaborators are modelled as records of state-threaded
functions (the explicit world state `W` stands for the hidden transport
state, so the same call may answer differently across invocations).
Fallible calls return `Except`; the distinguished "would block" condition
is a dedicated constructor, kept distinguishable from genuine errors.
Buffer mutation performed by the blocking read is modelled by returning
the byte count together with the buffer contents after the call.
-/

namespace AsyncSsh2

/-- A remote path: an opaque string identifying a remote filesystem entry. -/
abbrev Path := String

/-- ssh2::FileStat — the Attributes Record: sparse filesystem metadata. -/
structure FileStat where
  size : Option Nat
  uid : Option Nat
  gid : Option Nat
  perm : Option Nat
  atime : Option Nat
  mtime : Option Nat
deriving DecidableEq, Repr

/-- ssh2::Error. `eagain` is the library's distinguished would-block code
(LIBSSH2_ERROR_EAGAIN); every other error carries a code and a message. -/
inductive Ssh2Error where
  | eagain : Ssh2Error
  | other : Int → String → Ssh2Error
deriving DecidableEq, Repr

/-- std::io::Error, with the WouldBlock kind distinguished. -/
inductive IoError where
  | wouldBlock : IoError
  | other : Int → String → IoError
deriving DecidableEq, Repr

/-- The `err.into()` conversion from ssh2::Error to std::io::Error:
the would-block code maps to the WouldBlock kind, everything else is
carried over unchanged. -/
def ssh2IntoIo : Ssh2Error → IoError
  | Ssh2Error.eagain => IoError.wouldBlock
  | Ssh2Error.other c m => IoError.other c m

/-- ssh2::OpenFlags (a bitflags value). -/
abbrev OpenFlags := Nat

/-- ssh2::OpenType: open a file or a directory cursor. -/
inductive OpenType where
  | file : OpenType
  | dir : OpenType
deriving DecidableEq, Repr

/-- ssh2::RenameFlags (a bitflags value). -/
abbrev RenameFlags := Nat

/-- An I/O readiness direction on the transport. -/
inductive Dir where
  | read : Dir
  | write : Dir
deriving DecidableEq, Repr

/-- The transport readiness observed by the reactor at one scheduler step. -/
structure Readiness where
  canRead : Bool
  canWrite : Bool
deriving DecidableEq, Repr

/-- Whether the requested direction is ready. -/
def dirReady (rd : Readiness) : Dir → Bool
  | Dir.read => rd.canRead
  | Dir.write => rd.canWrite

/-- The outcome of polling a future once. -/
inductive Poll (α : Type) where
  | ready : α → Poll α
  | pending : Poll α
deriving DecidableEq, Repr

/-- The external blocking file handle (ssh2::File), specified at its
interface boundary: read/write/flush are synchronous calls that either
complete or report the distinguished would-block condition, behavior
threaded through the world state. `read` receives the caller's buffer and
returns the byte count together with the buffer contents after the call. -/
structure File (W : Type) where
  read : List Nat → W → Except IoError (Nat × List Nat) × W
  write : List Nat → W → Except IoError Nat × W
  flush : W → Except IoError Unit × W

/-- The external blocking session handle (ssh2::Sftp), specified at its
interface boundary: one synchronous call per session-level operation.
The Rust method `open` is rendered `open_` (`open` is reserved here). -/
structure Sftp (W : Type) where
  open_mode : Path → OpenFlags → Int → OpenType → W → Except Ssh2Error (File W) × W
  open_ : Path → W → Except Ssh2Error (File W) × W
  create : Path → W → Except Ssh2Error (File W) × W
  opendir : Path → W → Except Ssh2Error (File W) × W
  readdir : Path → W → Except Ssh2Error (List (Path × FileStat)) × W
  mkdir : Path → Int → W → Except Ssh2Error Unit × W
  rmdir : Path → W → Except Ssh2Error Unit × W
  stat : Path → W → Except Ssh2Error FileStat × W
  lstat : Path → W → Except Ssh2Error FileStat × W
  setstat : Path → FileStat → W → Except Ssh2Error Unit × W
  symlink : Path → Path → W → Except Ssh2Error Unit × W
  readlink : Path → W → Except Ssh2Error Path × W
  realpath : Path → W → Except Ssh2Error Path × W
  rename : Path → Path → Option RenameFlags → W → Except Ssh2Error Unit × W
  unlink : Path → W → Except Ssh2Error Unit × W

/-- async_io::Async, the reactor registration of the raw transport `S`. -/
structure Async (S : Type) where
  source : S

/-- std::sync::Arc: reference-counted shared ownership. `rc_id` identifies
the shared allocation, so two values with the same `rc_id` are clones of
one reference-counted handle. -/
structure Arc (α : Type) where
  rc_id : Nat
  val : α

/-- Arc::clone hands back the same shared allocation. -/
def Arc.clone {α : Type} (a : Arc α) : Arc α := a

/-- A readiness future produced by the reactor: the requested direction
together with the blocking closure to run once that direction is ready. -/
structure WithFut (W : Type) (α : Type) where
  dir : Dir
  op : W → Except IoError α × W

/-- Modelled from the spec: `async_io::Async::write_with` (the reactor is
an external collaborator, §6): build the future that resolves once the
transport is ready for write and then runs the given blocking closure. -/
def Async.write_with {S W α : Type} (_a : Async S)
    (op : W → Except IoError α × W) : WithFut W α :=
  { dir := Dir.write, op := op }

/-- Modelled from the spec: `async_io::Async::read_with`, the read-direction
counterpart of `write_with`. -/
def Async.read_with {S W α : Type} (_a : Async S)
    (op : W → Except IoError α × W) : WithFut W α :=
  { dir := Dir.read, op := op }

/-- Modelled from the spec (§4.1, §6): one poll of a reactor readiness
future. If the transport is not ready for the requested direction, the
poll is pending and the task suspends at this single readiness wait; once
ready the blocking closure runs exactly once; a would-block result
re-suspends until the next readiness cycle; any other result resolves the
future with the closure's outcome. -/
def pollFut {W α : Type} (fut : WithFut W α) (rd : Readiness) (w : W) :
    Poll (Except IoError α) × W :=
  if dirReady rd fut.dir then
    match fut.op w with
    | (Except.error IoError.wouldBlock, w1) => (Poll.pending, w1)
    | (r, w1) => (Poll.ready r, w1)
  else (Poll.pending, w)

/-- Modelled from the spec: `crate::util::poll_once`, the Blocking-call
Suspension Primitive (§4.1) — a single poll of a single future: a resolved
value or error is returned as the outcome, a not-yet-ready future suspends
the caller's task. -/
def poll_once {W α : Type} (fut : WithFut W α) (rd : Readiness) (w : W) :
    Poll (Except IoError α) × W :=
  pollFut fut rd w

/-- Awaiting a readiness future: the future is polled once per scheduler
step, `sched` giving the transport readiness observed at each step.
Returns the resolved outcome (`none` when the schedule is exhausted while
still pending), the final world, and the number of suspensions. -/
def driveWith {W α : Type} (fut : WithFut W α) :
    List Readiness → W → Option (Except IoError α) × W × Nat
  | [], w => (none, w, 0)
  | rd :: rest, w =>
    match pollFut fut rd w with
    | (Poll.ready v, w1) => (some v, w1, 0)
    | (Poll.pending, w1) =>
      match driveWith fut rest w1 with
      | (o, w2, n) => (o, w2, n + 1)

/-- Converts a blocking session call's result pair by the `err.into()`
error conversion, leaving the world untouched (`.map_err(|err| err.into())`). -/
def convRes {W α : Type} (p : Except Ssh2Error α × W) : Except IoError α × W :=
  (p.1.mapError ssh2IntoIo, p.2)

/-- The Session Adapter: wraps the blocking session handle and the shared
reactor registration (`AsyncSftp<S>` in the source). -/
structure AsyncSftp (S W : Type) where
  inner : Sftp W
  async_src : Arc (Async S)

/-- AsyncSftp::from_parts. -/
def AsyncSftp.from_parts {S W : Type} (inner : Sftp W) (a : Arc (Async S)) :
    AsyncSftp S W :=
  { inner := inner, async_src := a }

/-- The Handle Adapter: wraps one open blocking file/directory handle and
the shared reactor registration (`AsyncFile<S>` in the source). -/
structure AsyncFile (S W : Type) where
  inner : File W
  async_src : Arc (Async S)

/-- AsyncFile::from_parts. -/
def AsyncFile.from_parts {S W : Type} (inner : File W) (a : Arc (Async S)) :
    AsyncFile S W :=
  { inner := inner, async_src := a }

/-- The future awaited inside `AsyncSftp::open_mode`:
`self.async_io.write_with(|_| inner.open_mode(filename, flags, mode, open_type).map_err(|err| err.into()))`. -/
def AsyncSftp.open_mode_fut {S W : Type} (s : AsyncSftp S W) (filename : Path)
    (flags : OpenFlags) (mode : Int) (open_type : OpenType) : WithFut W (File W) :=
  s.async_src.val.write_with
    (fun w => convRes (s.inner.open_mode filename flags mode open_type w))

/-- The future awaited inside `AsyncSftp::open`. -/
def AsyncSftp.open_fut {S W : Type} (s : AsyncSftp S W) (filename : Path) :
    WithFut W (File W) :=
  s.async_src.val.write_with (fun w => convRes (s.inner.open_ filename w))

/-- The future awaited inside `AsyncSftp::create`. -/
def AsyncSftp.create_fut {S W : Type} (s : AsyncSftp S W) (filename : Path) :
    WithFut W (File W) :=
  s.async_src.val.write_with (fun w => convRes (s.inner.create filename w))

/-- The future awaited inside `AsyncSftp::opendir`. -/
def AsyncSftp.opendir_fut {S W : Type} (s : AsyncSftp S W) (dirname : Path) :
    WithFut W (File W) :=
  s.async_src.val.write_with (fun w => convRes (s.inner.opendir dirname w))

/-- `AsyncSftp::open_mode`: await the write-readiness future over the given
schedule, then `ret.and_then(|file| Ok(AsyncFile::from_parts(file, self.async_io.clone())))`. -/
def AsyncSftp.open_mode {S W : Type} (s : AsyncSftp S W) (filename : Path)
    (flags : OpenFlags) (mode : Int) (open_type : OpenType)
    (sched : List Readiness) (w : W) :
    Option (Except IoError (AsyncFile S W)) × W × Nat :=
  match driveWith (s.open_mode_fut filename flags mode open_type) sched w with
  | (ret, w1, n) =>
    (ret.map (fun r =>
      r.bind (fun file => Except.ok (AsyncFile.from_parts file s.async_src.clone))),
     w1, n)

/-- `AsyncSftp::open`, likewise. -/
def AsyncSftp.open_ {S W : Type} (s : AsyncSftp S W) (filename : Path)
    (sched : List Readiness) (w : W) :
    Option (Except IoError (AsyncFile S W)) × W × Nat :=
  match driveWith (s.open_fut filename) sched w with
  | (ret, w1, n) =>
    (ret.map (fun r =>
      r.bind (fun file => Except.ok (AsyncFile.from_parts file s.async_src.clone))),
     w1, n)

/-- `AsyncSftp::create`, likewise. -/
def AsyncSftp.create {S W : Type} (s : AsyncSftp S W) (filename : Path)
    (sched : List Readiness) (w : W) :
    Option (Except IoError (AsyncFile S W)) × W × Nat :=
  match driveWith (s.create_fut filename) sched w with
  | (ret, w1, n) =>
    (ret.map (fun r =>
      r.bind (fun file => Except.ok (AsyncFile.from_parts file s.async_src.clone))),
     w1, n)

/-- `AsyncSftp::opendir`, likewise. -/
def AsyncSftp.opendir {S W : Type} (s : AsyncSftp S W) (dirname : Path)
    (sched : List Readiness) (w : W) :
    Option (Except IoError (AsyncFile S W)) × W × Nat :=
  match driveWith (s.opendir_fut dirname) sched w with
  | (ret, w1, n) =>
    (ret.map (fun r =>
      r.bind (fun file => Except.ok (AsyncFile.from_parts file s.async_src.clone))),
     w1, n)

/-- `AsyncSftp::readdir` (the awaited future; the method is exactly its await). -/
def AsyncSftp.readdir {S W : Type} (s : AsyncSftp S W) (dirname : Path) :
    WithFut W (List (Path × FileStat)) :=
  s.async_src.val.write_with (fun w => convRes (s.inner.readdir dirname w))

/-- `AsyncSftp::mkdir`. -/
def AsyncSftp.mkdir {S W : Type} (s : AsyncSftp S W) (filename : Path)
    (mode : Int) : WithFut W Unit :=
  s.async_src.val.write_with (fun w => convRes (s.inner.mkdir filename mode w))

/-- `AsyncSftp::rmdir`. -/
def AsyncSftp.rmdir {S W : Type} (s : AsyncSftp S W) (filename : Path) :
    WithFut W Unit :=
  s.async_src.val.write_with (fun w => convRes (s.inner.rmdir filename w))

/-- `AsyncSftp::stat`. -/
def AsyncSftp.stat {S W : Type} (s : AsyncSftp S W) (filename : Path) :
    WithFut W FileStat :=
  s.async_src.val.write_with (fun w => convRes (s.inner.stat filename w))

/-- `AsyncSftp::lstat`. -/
def AsyncSftp.lstat {S W : Type} (s : AsyncSftp S W) (filename : Path) :
    WithFut W FileStat :=
  s.async_src.val.write_with (fun w => convRes (s.inner.lstat filename w))

/-- `AsyncSftp::setstat`: the closure passes `stat.clone()` on every
invocation; cloning an Attributes Record is the identity on its value, so
the closure hands the identical record `st` to every blocking attempt. -/
def AsyncSftp.setstat {S W : Type} (s : AsyncSftp S W) (filename : Path)
    (st : FileStat) : WithFut W Unit :=
  s.async_src.val.write_with (fun w => convRes (s.inner.setstat filename st w))

/-- `AsyncSftp::symlink`. -/
def AsyncSftp.symlink {S W : Type} (s : AsyncSftp S W) (path target : Path) :
    WithFut W Unit :=
  s.async_src.val.write_with (fun w => convRes (s.inner.symlink path target w))

/-- `AsyncSftp::readlink`. -/
def AsyncSftp.readlink {S W : Type} (s : AsyncSftp S W) (path : Path) :
    WithFut W Path :=
  s.async_src.val.write_with (fun w => convRes (s.inner.readlink path w))

/-- `AsyncSftp::realpath`. -/
def AsyncSftp.realpath {S W : Type} (s : AsyncSftp S W) (path : Path) :
    WithFut W Path :=
  s.async_src.val.write_with (fun w => convRes (s.inner.realpath path w))

/-- `AsyncSftp::rename`. -/
def AsyncSftp.rename {S W : Type} (s : AsyncSftp S W) (src dst : Path)
    (flags : Option RenameFlags) : WithFut W Unit :=
  s.async_src.val.write_with (fun w => convRes (s.inner.rename src dst flags w))

/-- `AsyncSftp::unlink`. -/
def AsyncSftp.unlink {S W : Type} (s : AsyncSftp S W) (file : Path) :
    WithFut W Unit :=
  s.async_src.val.write_with (fun w => convRes (s.inner.unlink file w))

/-- The future polled by `AsyncFile::poll_read`:
`this.async_io.read_with(|_| inner.read(buf))`. -/
def AsyncFile.read_fut {S W : Type} (f : AsyncFile S W) (buf : List Nat) :
    WithFut W (Nat × List Nat) :=
  f.async_src.val.read_with (fun w => f.inner.read buf w)

/-- `AsyncFile::poll_read`: a single poll, via the Suspension Primitive. -/
def AsyncFile.poll_read {S W : Type} (f : AsyncFile S W) (rd : Readiness)
    (buf : List Nat) (w : W) : Poll (Except IoError (Nat × List Nat)) × W :=
  poll_once (f.read_fut buf) rd w

/-- The future polled by `AsyncFile::poll_write`:
`this.async_io.write_with(|_| inner.write(buf))`. -/
def AsyncFile.write_fut {S W : Type} (f : AsyncFile S W) (buf : List Nat) :
    WithFut W Nat :=
  f.async_src.val.write_with (fun w => f.inner.write buf w)

/-- `AsyncFile::poll_write`. -/
def AsyncFile.poll_write {S W : Type} (f : AsyncFile S W) (rd : Readiness)
    (buf : List Nat) (w : W) : Poll (Except IoError Nat) × W :=
  poll_once (f.write_fut buf) rd w

/-- The future polled by `AsyncFile::poll_flush`:
`this.async_io.write_with(|_| inner.flush())`. -/
def AsyncFile.flush_fut {S W : Type} (f : AsyncFile S W) : WithFut W Unit :=
  f.async_src.val.write_with (fun w => f.inner.flush w)

/-- `AsyncFile::poll_flush`. -/
def AsyncFile.poll_flush {S W : Type} (f : AsyncFile S W) (rd : Readiness)
    (w : W) : Poll (Except IoError Unit) × W :=
  poll_once f.flush_fut rd w

/-- The future polled by `AsyncFile::poll_close`:
`this.async_io.write_with(|_| Ok(()))` — the wrapped handle is untouched. -/
def AsyncFile.close_fut {S W : Type} (f : AsyncFile S W) : WithFut W Unit :=
  f.async_src.val.write_with (fun w => (Except.ok (), w))

/-- `AsyncFile::poll_close`. -/
def AsyncFile.poll_close {S W : Type} (f : AsyncFile S W) (rd : Readiness)
    (w : W) : Poll (Except IoError Unit) × W :=
  poll_once f.close_fut rd w

/-!
Instrumentation: to observe which blocking calls the adapters make (and
how many), the world state is instantiated with a call log. Each logging
collaborator appends one event per invocation and answers according to an
oracle that may consult the log, so results can vary across attempts.
-/

/-- One invocation of a blocking collaborator operation. -/
inductive CallEv where
  | open_modeCall : Path → OpenFlags → Int → OpenType → CallEv
  | openCall : Path → CallEv
  | createCall : Path → CallEv
  | opendirCall : Path → CallEv
  | readdirCall : Path → CallEv
  | mkdirCall : Path → Int → CallEv
  | rmdirCall : Path → CallEv
  | statCall : Path → CallEv
  | lstatCall : Path → CallEv
  | setstatCall : Path → FileStat → CallEv
  | symlinkCall : Path → Path → CallEv
  | readlinkCall : Path → CallEv
  | realpathCall : Path → CallEv
  | renameCall : Path → Path → Option RenameFlags → CallEv
  | unlinkCall : Path → CallEv
  | readCall : List Nat → CallEv
  | writeCall : List Nat → CallEv
  | flushCall : CallEv
deriving Repr

/-- The world state of the logging collaborators: most recent call first. -/
abbrev Log := List CallEv

/-- An oracle giving the result of each session call as a function of the
call log at the time of the invocation. -/
structure SftpOracle where
  open_modeR : Log → Except Ssh2Error (File Log)
  openR : Log → Except Ssh2Error (File Log)
  createR : Log → Except Ssh2Error (File Log)
  opendirR : Log → Except Ssh2Error (File Log)
  readdirR : Log → Except Ssh2Error (List (Path × FileStat))
  mkdirR : Log → Except Ssh2Error Unit
  rmdirR : Log → Except Ssh2Error Unit
  statR : Log → Except Ssh2Error FileStat
  lstatR : Log → Except Ssh2Error FileStat
  setstatR : Log → Except Ssh2Error Unit
  symlinkR : Log → Except Ssh2Error Unit
  readlinkR : Log → Except Ssh2Error Path
  realpathR : Log → Except Ssh2Error Path
  renameR : Log → Except Ssh2Error Unit
  unlinkR : Log → Except Ssh2Error Unit

/-- The logging blocking session handle: every operation records exactly
one event and answers per the oracle. -/
def logSftp (o : SftpOracle) : Sftp Log :=
  { open_mode := fun p fl m t w =>
      (o.open_modeR w, CallEv.open_modeCall p fl m t :: w)
  , open_ := fun p w => (o.openR w, CallEv.openCall p :: w)
  , create := fun p w => (o.createR w, CallEv.createCall p :: w)
  , opendir := fun p w => (o.opendirR w, CallEv.opendirCall p :: w)
  , readdir := fun p w => (o.readdirR w, CallEv.readdirCall p :: w)
  , mkdir := fun p m w => (o.mkdirR w, CallEv.mkdirCall p m :: w)
  , rmdir := fun p w => (o.rmdirR w, CallEv.rmdirCall p :: w)
  , stat := fun p w => (o.statR w, CallEv.statCall p :: w)
  , lstat := fun p w => (o.lstatR w, CallEv.lstatCall p :: w)
  , setstat := fun p st w => (o.setstatR w, CallEv.setstatCall p st :: w)
  , symlink := fun p q w => (o.symlinkR w, CallEv.symlinkCall p q :: w)
  , readlink := fun p w => (o.readlinkR w, CallEv.readlinkCall p :: w)
  , realpath := fun p w => (o.realpathR w, CallEv.realpathCall p :: w)
  , rename := fun p q fl w => (o.renameR w, CallEv.renameCall p q fl :: w)
  , unlink := fun p w => (o.unlinkR w, CallEv.unlinkCall p :: w) }

/-- An oracle giving the result of each blocking file call. -/
structure FileOracle where
  readR : Log → Except IoError (Nat × List Nat)
  writeR : Log → Except IoError Nat
  flushR : Log → Except IoError Unit

/-- The logging blocking file handle. -/
def logFile (o : FileOracle) : File Log :=
  { read := fun buf w => (o.readR w, CallEv.readCall buf :: w)
  , write := fun buf w => (o.writeR w, CallEv.writeCall buf :: w)
  , flush := fun w => (o.flushR w, CallEv.flushCall :: w) }

/-- A Session Adapter over the logging session handle. -/
def logSession {S : Type} (o : SftpOracle) (a : Arc (Async S)) :
    AsyncSftp S Log :=
  AsyncSftp.from_parts (logSftp o) a

/-- A Handle Adapter over the logging file handle. -/
def logHandle {S : Type} (o : FileOracle) (a : Arc (Async S)) :
    AsyncFile S Log :=
  AsyncFile.from_parts (logFile o) a

/-- Exact forwarding of a session call: each poll of the future behaves as
one invocation of the given blocking call, with a success passed through
unchanged, a genuine error passed through under the `err.into()` conversion
only, the would-block code consumed by re-suspension, and a not-ready
direction suspending with the world untouched. -/
def sessionForward {W α : Type} (fut : WithFut W α)
    (call : W → Except Ssh2Error α × W) : Prop :=
  ∀ (rd : Readiness) (w : W),
    pollFut fut rd w =
      if dirReady rd fut.dir then
        match call w with
        | (Except.error Ssh2Error.eagain, w1) => (Poll.pending, w1)
        | (Except.error e, w1) =>
          (Poll.ready (Except.error (ssh2IntoIo e)), w1)
        | (Except.ok v, w1) => (Poll.ready (Except.ok v), w1)
      else (Poll.pending, w)

/-- Exact forwarding of a handle call: as `sessionForward`, but the
blocking call already reports `IoError`, so no conversion at all; the
WouldBlock kind is consumed by re-suspension, never surfaced. -/
def handleForward {W α : Type} (fut : WithFut W α)
    (call : W → Except IoError α × W) : Prop :=
  ∀ (rd : Readiness) (w : W),
    pollFut fut rd w =
      if dirReady rd fut.dir then
        match call w with
        | (Except.error IoError.wouldBlock, w1) => (Poll.pending, w1)
        | (r, w1) => (Poll.ready r, w1)
      else (Poll.pending, w)

/-- The future is gated on write readiness and performs exactly one
blocking call per ready poll: without write readiness the poll suspends
with no call recorded; with it, exactly one call is recorded on the log. -/
def writeGatedOneCall {α : Type} (fut : WithFut Log α) : Prop :=
  ∀ (cr : Bool) (w : Log),
    pollFut fut { canRead := cr, canWrite := false } w = (Poll.pending, w) ∧
    ((pollFut fut { canRead := cr, canWrite := true } w).2).length
      = w.length + 1

/-- A concrete blocking session handle whose open-family operations are
rejected remotely; the remaining operations succeed trivially. -/
def errSftp : Sftp Unit :=
  { open_mode := fun _ _ _ _ w => (Except.error (Ssh2Error.other 2 "denied"), w)
  , open_ := fun _ w => (Except.error (Ssh2Error.other 2 "denied"), w)
  , create := fun _ w => (Except.error (Ssh2Error.other 2 "denied"), w)
  , opendir := fun _ w => (Except.error (Ssh2Error.other 2 "denied"), w)
  , readdir := fun _ w => (Except.ok [], w)
  , mkdir := fun _ _ w => (Except.ok (), w)
  , rmdir := fun _ w => (Except.ok (), w)
  , stat := fun _ w => (Except.ok ⟨none, none, none, none, none, none⟩, w)
  , lstat := fun _ w => (Except.ok ⟨none, none, none, none, none, none⟩, w)
  , setstat := fun _ _ w => (Except.ok (), w)
  , symlink := fun _ _ w => (Except.ok (), w)
  , readlink := fun _ w => (Except.ok "", w)
  , realpath := fun _ w => (Except.ok "", w)
  , rename := fun _ _ _ w => (Except.ok (), w)
  , unlink := fun _ w => (Except.ok (), w) }

/-- A concrete shared reactor handle over a unit transport. -/
def arcU : Arc (Async Unit) := { rc_id := 0, val := { source := () } }

/-- The Session Adapter over `errSftp`. -/
def sErr : AsyncSftp Unit Unit := AsyncSftp.from_parts errSftp arcU

/-- A one-step schedule where the transport is ready in both directions. -/
def schedRW : List Readiness := [{ canRead := true, canWrite := true }]

/-- The converted image of the rejection reported by `errSftp`. -/
def eDenied : IoError := IoError.other 2 "denied"

/-!  Helper lemmas about one poll of a readiness future. -/

/-- A poll in a direction that is not ready suspends without running the
blocking closure: the world is untouched. -/
theorem pollFut_not_ready {W α : Type} (fut : WithFut W α) (rd : Readiness)
    (w : W) (h : dirReady rd fut.dir = false) :
    pollFut fut rd w = (Poll.pending, w) := by
  unfold pollFut
  rw [h]
  simp

/-- A poll in a ready direction leaves the world exactly as the single
closure invocation leaves it. -/
theorem pollFut_ready_snd {W α : Type} (fut : WithFut W α) (rd : Readiness)
    (w : W) (h : dirReady rd fut.dir = true) :
    (pollFut fut rd w).2 = (fut.op w).2 := by
  unfold pollFut
  rw [h]
  rcases hop : fut.op w with ⟨r, w1⟩
  rcases r with e | v
  · rcases e with _ | ⟨c, m⟩ <;> simp
  · simp

/-- No poll of a readiness future ever resolves to the would-block error:
the transient condition is consumed by re-suspension, never surfaced. -/
theorem pollFut_no_wouldBlock {W α : Type} (fut : WithFut W α)
    (rd : Readiness) (w : W) :
    (pollFut fut rd w).1 ≠ Poll.ready (Except.error IoError.wouldBlock) := by
  unfold pollFut
  by_cases h : dirReady rd fut.dir
  · rw [h]
    rcases hop : fut.op w with ⟨r, w1⟩
    rcases r with e | v
    · rcases e with _ | ⟨c, m⟩ <;> simp
    · simp
  · rw [Bool.not_eq_true] at h
    rw [h]
    simp

/-- Awaiting a readiness future never yields the would-block error. -/
theorem driveWith_no_wouldBlock {W α : Type} (fut : WithFut W α)
    (sched : List Readiness) (w : W) :
    (driveWith fut sched w).1 ≠ some (Except.error IoError.wouldBlock) := by
  induction sched generalizing w with
  | nil => simp [driveWith]
  | cons rd rest ih =>
    unfold driveWith
    rcases hp : pollFut fut rd w with ⟨p, w1⟩
    rcases p with v | _
    · have h1 := pollFut_no_wouldBlock fut rd w
      rw [hp] at h1
      simp only [hp]
      intro hc
      injection hc with hc
      exact h1 (by simp [hc])
    · simp only [hp]
      rcases hd : driveWith fut rest w1 with ⟨o, w2, n⟩
      have h2 := ih w1
      rw [hd] at h2
      simpa using h2

/-- One poll leaves the world either untouched (not ready) or exactly as
the single closure invocation leaves it (ready). -/
theorem pollFut_snd_or {W α : Type} (fut : WithFut W α) (rd : Readiness)
    (w : W) :
    (pollFut fut rd w).2 = w ∨ (pollFut fut rd w).2 = (fut.op w).2 := by
  by_cases h : dirReady rd fut.dir = true
  · exact Or.inr (pollFut_ready_snd fut rd w h)
  · rw [Bool.not_eq_true] at h
    exact Or.inl (by rw [pollFut_not_ready fut rd w h])

/-- Any future whose closure is one blocking session call under the
`err.into()` conversion forwards that call exactly. -/
theorem sessionForward_of {W α : Type} (fut : WithFut W α)
    (call : W → Except Ssh2Error α × W)
    (hop : ∀ w, fut.op w = convRes (call w)) : sessionForward fut call := by
  intro rd w
  unfold pollFut
  by_cases h : dirReady rd fut.dir = true
  · rw [h]
    rw [hop w]
    rcases hc : call w with ⟨r, w1⟩
    rcases r with e | v
    · rcases e with _ | ⟨c, m⟩ <;> simp [convRes, Except.mapError, ssh2IntoIo]
    · simp [convRes, Except.mapError, ssh2IntoIo]
  · rw [Bool.not_eq_true] at h
    rw [h]
    simp

/-- Any future whose closure is exactly one blocking handle call forwards
that call exactly. -/
theorem handleForward_of {W α : Type} (fut : WithFut W α)
    (call : W → Except IoError α × W)
    (hop : ∀ w, fut.op w = call w) : handleForward fut call := by
  intro rd w
  unfold pollFut
  rw [hop w]

/-- A write-direction future over the log world whose closure records
exactly one call satisfies `writeGatedOneCall`. -/
theorem writeGatedOneCall_of {α : Type} (fut : WithFut Log α)
    (hdir : fut.dir = Dir.write)
    (hop : ∀ w, ((fut.op w).2).length = w.length + 1) :
    writeGatedOneCall fut := by
  intro cr w
  constructor
  · exact pollFut_not_ready fut _ w (by rw [hdir]; rfl)
  · rw [pollFut_ready_snd fut _ w (by rw [hdir]; rfl)]
    exact hop w

/-- Binding a success-only continuation is mapping it. -/
theorem bind_ok_eq_map {ε α β : Type} (g : α → β) (r : Except ε α) :
    r.bind (fun x => Except.ok (g x)) = Except.map g r := by
  cases r <;> rfl

/-- C1: for every Session Adapter operation (open_mode, open, create,
opendir, readdir, mkdir, rmdir, stat, lstat, setstat, symlink, readlink,
realpath, rename, unlink) and every Handle Adapter operation (poll_read,
poll_write, poll_flush), the async operation's failure outcome is exactly
the error produced by the underlying blocking call, converted
(`err.into()`) but otherwise unmodified — no error is recovered, masked or
replaced, and the transient would-block condition is consumed by
re-suspension, never surfaced as a result. -/
theorem error_propagation_exact {S W : Type} (s : AsyncSftp S W)
    (f : AsyncFile S W) (p q : Path) (fl : OpenFlags) (m : Int)
    (t : OpenType) (rf : Option RenameFlags) (st : FileStat)
    (buf : List Nat) :
    sessionForward (s.open_mode_fut p fl m t) (s.inner.open_mode p fl m t) ∧
    sessionForward (s.open_fut p) (s.inner.open_ p) ∧
    sessionForward (s.create_fut p) (s.inner.create p) ∧
    sessionForward (s.opendir_fut p) (s.inner.opendir p) ∧
    sessionForward (s.readdir p) (s.inner.readdir p) ∧
    sessionForward (s.mkdir p m) (s.inner.mkdir p m) ∧
    sessionForward (s.rmdir p) (s.inner.rmdir p) ∧
    sessionForward (s.stat p) (s.inner.stat p) ∧
    sessionForward (s.lstat p) (s.inner.lstat p) ∧
    sessionForward (s.setstat p st) (s.inner.setstat p st) ∧
    sessionForward (s.symlink p q) (s.inner.symlink p q) ∧
    sessionForward (s.readlink p) (s.inner.readlink p) ∧
    sessionForward (s.realpath p) (s.inner.realpath p) ∧
    sessionForward (s.rename p q rf) (s.inner.rename p q rf) ∧
    sessionForward (s.unlink p) (s.inner.unlink p) ∧
    handleForward (f.read_fut buf) (f.inner.read buf) ∧
    handleForward (f.write_fut buf) (f.inner.write buf) ∧
    handleForward f.flush_fut f.inner.flush :=
  ⟨sessionForward_of _ _ (fun _ => rfl), sessionForward_of _ _ (fun _ => rfl),
   sessionForward_of _ _ (fun _ => rfl), sessionForward_of _ _ (fun _ => rfl),
   sessionForward_of _ _ (fun _ => rfl), sessionForward_of _ _ (fun _ => rfl),
   sessionForward_of _ _ (fun _ => rfl), sessionForward_of _ _ (fun _ => rfl),
   sessionForward_of _ _ (fun _ => rfl), sessionForward_of _ _ (fun _ => rfl),
   sessionForward_of _ _ (fun _ => rfl), sessionForward_of _ _ (fun _ => rfl),
   sessionForward_of _ _ (fun _ => rfl), sessionForward_of _ _ (fun _ => rfl),
   sessionForward_of _ _ (fun _ => rfl), handleForward_of _ _ (fun _ => rfl),
   handleForward_of _ _ (fun _ => rfl), handleForward_of _ _ (fun _ => rfl)⟩

/-- C3: every one of the fifteen session-level methods submits its blocking
call to the reactor through the write-readiness path, never the
read-readiness path. -/
theorem session_ops_write_readiness {S W : Type} (s : AsyncSftp S W)
    (p q : Path) (fl : OpenFlags) (m : Int) (t : OpenType)
    (rf : Option RenameFlags) (st : FileStat) :
    (s.open_mode_fut p fl m t).dir = Dir.write ∧
    (s.open_fut p).dir = Dir.write ∧
    (s.create_fut p).dir = Dir.write ∧
    (s.opendir_fut p).dir = Dir.write ∧
    (s.readdir p).dir = Dir.write ∧
    (s.mkdir p m).dir = Dir.write ∧
    (s.rmdir p).dir = Dir.write ∧
    (s.stat p).dir = Dir.write ∧
    (s.lstat p).dir = Dir.write ∧
    (s.setstat p st).dir = Dir.write ∧
    (s.symlink p q).dir = Dir.write ∧
    (s.readlink p).dir = Dir.write ∧
    (s.realpath p).dir = Dir.write ∧
    (s.rename p q rf).dir = Dir.write ∧
    (s.unlink p).dir = Dir.write :=
  ⟨rfl, rfl, rfl, rfl, rfl, rfl, rfl, rfl, rfl, rfl, rfl, rfl, rfl, rfl, rfl⟩

/-- C4: poll_close, whenever it resolves, resolves to success — for every
adapter, readiness and world state its outcome is `ok ()` once the write
direction is ready — and it leaves the world untouched: no operation of
the wrapped blocking handle is ever invoked (cleanup is left to
destruction, outside this layer). -/
theorem poll_close_always_succeeds {S W : Type} (f : AsyncFile S W)
    (rd : Readiness) (w : W) :
    f.poll_close rd w =
      ((if rd.canWrite then Poll.ready (Except.ok ()) else Poll.pending), w) := by
  rcases rd with ⟨cr, cw⟩
  cases cw <;> rfl

/-- C10: poll_close still routes its no-op closure through the
write-readiness path: the submitted future requests write readiness, a
poll without write readiness returns Pending (suspending the caller), and
a poll with write readiness resolves to success. -/
theorem poll_close_write_gated {S W : Type} (f : AsyncFile S W) :
    f.close_fut.dir = Dir.write ∧
    (∀ (cr : Bool) (w : W),
      f.poll_close { canRead := cr, canWrite := false } w = (Poll.pending, w)) ∧
    (∀ (cr : Bool) (w : W),
      f.poll_close { canRead := cr, canWrite := true } w =
        (Poll.ready (Except.ok ()), w)) :=
  ⟨rfl, fun _ _ => rfl, fun _ _ => rfl⟩

/-- C2: over the logging collaborators, every session-level method performs
exactly one blocking call against the wrapped session handle per ready
poll and records no call at all on a poll where its direction is not ready
— the only suspension is the readiness wait (the poll returns Pending with
the log untouched); likewise each handle-level poll function suspends, with
no blocking call, whenever its direction is not ready. -/
theorem one_blocking_call_single_suspension {S : Type} (o : SftpOracle)
    (fo : FileOracle) (a : Arc (Async S)) (p q : Path) (fl : OpenFlags)
    (m : Int) (t : OpenType) (rf : Option RenameFlags) (st : FileStat)
    (buf : List Nat) :
    writeGatedOneCall ((logSession o a).open_mode_fut p fl m t) ∧
    writeGatedOneCall ((logSession o a).open_fut p) ∧
    writeGatedOneCall ((logSession o a).create_fut p) ∧
    writeGatedOneCall ((logSession o a).opendir_fut p) ∧
    writeGatedOneCall ((logSession o a).readdir p) ∧
    writeGatedOneCall ((logSession o a).mkdir p m) ∧
    writeGatedOneCall ((logSession o a).rmdir p) ∧
    writeGatedOneCall ((logSession o a).stat p) ∧
    writeGatedOneCall ((logSession o a).lstat p) ∧
    writeGatedOneCall ((logSession o a).setstat p st) ∧
    writeGatedOneCall ((logSession o a).symlink p q) ∧
    writeGatedOneCall ((logSession o a).readlink p) ∧
    writeGatedOneCall ((logSession o a).realpath p) ∧
    writeGatedOneCall ((logSession o a).rename p q rf) ∧
    writeGatedOneCall ((logSession o a).unlink p) ∧
    (∀ (cw : Bool) (w : Log),
      (logHandle fo a).poll_read { canRead := false, canWrite := cw } buf w =
        (Poll.pending, w)) ∧
    (∀ (cr : Bool) (w : Log),
      (logHandle fo a).poll_write { canRead := cr, canWrite := false } buf w =
        (Poll.pending, w)) ∧
    (∀ (cr : Bool) (w : Log),
      (logHandle fo a).poll_flush { canRead := cr, canWrite := false } w =
        (Poll.pending, w)) ∧
    (∀ (cr : Bool) (w : Log),
      (logHandle fo a).poll_close { canRead := cr, canWrite := false } w =
        (Poll.pending, w)) :=
  ⟨writeGatedOneCall_of _ rfl (fun _ => rfl),
   writeGatedOneCall_of _ rfl (fun _ => rfl),
   writeGatedOneCall_of _ rfl (fun _ => rfl),
   writeGatedOneCall_of _ rfl (fun _ => rfl),
   writeGatedOneCall_of _ rfl (fun _ => rfl),
   writeGatedOneCall_of _ rfl (fun _ => rfl),
   writeGatedOneCall_of _ rfl (fun _ => rfl),
   writeGatedOneCall_of _ rfl (fun _ => rfl),
   writeGatedOneCall_of _ rfl (fun _ => rfl),
   writeGatedOneCall_of _ rfl (fun _ => rfl),
   writeGatedOneCall_of _ rfl (fun _ => rfl),
   writeGatedOneCall_of _ rfl (fun _ => rfl),
   writeGatedOneCall_of _ rfl (fun _ => rfl),
   writeGatedOneCall_of _ rfl (fun _ => rfl),
   writeGatedOneCall_of _ rfl (fun _ => rfl),
   fun _ _ => rfl, fun _ _ => rfl, fun _ _ => rfl, fun _ _ => rfl⟩

/-- C5: poll_read requests read readiness, not write readiness; a poll
without read readiness suspends with no call recorded; a poll with read
readiness performs exactly one underlying read call with the
caller-provided buffer and returns exactly that call's outcome — the byte
count it read (zero, signalling end-of-stream, or a partial count
included) together with the buffer after the call, with no further call in
the same poll. -/
theorem poll_read_one_call_exact {S : Type} (o : FileOracle)
    (a : Arc (Async S)) (buf : List Nat) :
    ((logHandle o a).read_fut buf).dir = Dir.read ∧
    (∀ (cw : Bool) (w : Log),
      (logHandle o a).poll_read { canRead := false, canWrite := cw } buf w =
        (Poll.pending, w)) ∧
    (∀ (cw : Bool) (w : Log),
      (logHandle o a).poll_read { canRead := true, canWrite := cw } buf w =
        ((match o.readR w with
          | Except.error IoError.wouldBlock => Poll.pending
          | r => Poll.ready r), CallEv.readCall buf :: w)) := by
  refine ⟨rfl, fun _ _ => rfl, fun cw w => ?_⟩
  rcases hr : o.readR w with e | v
  · rcases e with _ | ⟨c, m⟩ <;>
      simp [AsyncFile.poll_read, poll_once, pollFut, AsyncFile.read_fut,
            Async.read_with, logHandle, logFile, AsyncFile.from_parts,
            dirReady, hr]
  · simp [AsyncFile.poll_read, poll_once, pollFut, AsyncFile.read_fut,
          Async.read_with, logHandle, logFile, AsyncFile.from_parts,
          dirReady, hr]

/-- C7: across an entire await of setstat — however many would-block
retries the schedule induces — every blocking attempt recorded on the log
received the identical Attributes Record `st` the caller supplied: the
record is passed by copy to each invocation and never mutated in place. -/
theorem setstat_identical_record_each_attempt {S : Type} (o : SftpOracle)
    (a : Arc (Async S)) (p : Path) (st : FileStat) (sched : List Readiness)
    (w : Log) :
    ∃ k : Nat,
      (driveWith ((logSession o a).setstat p st) sched w).2.1 =
        List.replicate k (CallEv.setstatCall p st) ++ w := by
  induction sched generalizing w with
  | nil => exact ⟨0, rfl⟩
  | cons rd rest ih =>
    unfold driveWith
    rcases hp : pollFut ((logSession o a).setstat p st) rd w with ⟨pl, w1⟩
    have hw1 : w1 = w ∨ w1 = CallEv.setstatCall p st :: w := by
      have h2 := pollFut_snd_or ((logSession o a).setstat p st) rd w
      rw [hp] at h2
      exact h2
    rcases pl with v | _
    · simp only [hp]
      rcases hw1 with h | h
      · exact ⟨0, by simp [h]⟩
      · exact ⟨1, by simp [h, List.replicate]⟩
    · simp only [hp]
      rcases hd : driveWith ((logSession o a).setstat p st) rest w1
        with ⟨oo, w2, n⟩
      obtain ⟨k, hk⟩ := ih w1
      rw [hd] at hk
      rcases hw1 with h | h
      · subst h
        exact ⟨k, by simpa using hk⟩
      · subst h
        refine ⟨k + 1, ?_⟩
        simp only at hk ⊢
        rw [hk, List.replicate_succ']
        simp [List.append_assoc]

/-- C6: each of the four open-family operations hands the new Handle
Adapter a reference-counted clone of the very Reactor Handle held by the
Session Adapter: every successful result is `from_parts` of the opened
blocking handle with `Arc.clone` of the session's reactor handle, and that
clone is the same shared registration. -/
theorem open_family_shared_reactor {S W : Type} (s : AsyncSftp S W)
    (p : Path) (fl : OpenFlags) (m : Int) (t : OpenType)
    (sched : List Readiness) (w : W) :
    (s.open_mode p fl m t sched w).1 =
      Option.map
        (Except.map (fun file => AsyncFile.from_parts file s.async_src.clone))
        (driveWith (s.open_mode_fut p fl m t) sched w).1 ∧
    (s.open_ p sched w).1 =
      Option.map
        (Except.map (fun file => AsyncFile.from_parts file s.async_src.clone))
        (driveWith (s.open_fut p) sched w).1 ∧
    (s.create p sched w).1 =
      Option.map
        (Except.map (fun file => AsyncFile.from_parts file s.async_src.clone))
        (driveWith (s.create_fut p) sched w).1 ∧
    (s.opendir p sched w).1 =
      Option.map
        (Except.map (fun file => AsyncFile.from_parts file s.async_src.clone))
        (driveWith (s.opendir_fut p) sched w).1 ∧
    (∀ file : File W,
      (AsyncFile.from_parts file s.async_src.clone).async_src = s.async_src) := by
  refine ⟨?_, ?_, ?_, ?_, fun _ => rfl⟩
  · unfold AsyncSftp.open_mode
    rcases hd : driveWith (s.open_mode_fut p fl m t) sched w with ⟨ret, w1, n⟩
    cases ret <;> simp [bind_ok_eq_map]
  · unfold AsyncSftp.open_
    rcases hd : driveWith (s.open_fut p) sched w with ⟨ret, w1, n⟩
    cases ret <;> simp [bind_ok_eq_map]
  · unfold AsyncSftp.create
    rcases hd : driveWith (s.create_fut p) sched w with ⟨ret, w1, n⟩
    cases ret <;> simp [bind_ok_eq_map]
  · unfold AsyncSftp.opendir
    rcases hd : driveWith (s.opendir_fut p) sched w with ⟨ret, w1, n⟩
    cases ret <;> simp [bind_ok_eq_map]

/-- C9: when the awaited open-family future resolves to an error, the
async method returns exactly that error: the adapter-construction step
runs only on the success branch, so no Handle Adapter is built and no
clone of the Reactor Handle appears in the outcome. -/
theorem open_family_error_no_adapter {S W : Type} (s : AsyncSftp S W)
    (p1 p2 p3 p4 : Path) (fl : OpenFlags) (m : Int) (t : OpenType)
    (sc1 sc2 sc3 sc4 : List Readiness) (w1 w2 w3 w4 : W)
    (e1 e2 e3 e4 : IoError)
    (h1 : (driveWith (s.open_mode_fut p1 fl m t) sc1 w1).1 =
      some (Except.error e1))
    (h2 : (driveWith (s.open_fut p2) sc2 w2).1 = some (Except.error e2))
    (h3 : (driveWith (s.create_fut p3) sc3 w3).1 = some (Except.error e3))
    (h4 : (driveWith (s.opendir_fut p4) sc4 w4).1 = some (Except.error e4)) :
    (s.open_mode p1 fl m t sc1 w1).1 = some (Except.error e1) ∧
    (s.open_ p2 sc2 w2).1 = some (Except.error e2) ∧
    (s.create p3 sc3 w3).1 = some (Except.error e3) ∧
    (s.opendir p4 sc4 w4).1 = some (Except.error e4) := by
  refine ⟨?_, ?_, ?_, ?_⟩
  · unfold AsyncSftp.open_mode
    rcases hd : driveWith (s.open_mode_fut p1 fl m t) sc1 w1 with ⟨ret, wf, n⟩
    rw [hd] at h1
    simp only at h1
    subst h1
    rfl
  · unfold AsyncSftp.open_
    rcases hd : driveWith (s.open_fut p2) sc2 w2 with ⟨ret, wf, n⟩
    rw [hd] at h2
    simp only at h2
    subst h2
    rfl
  · unfold AsyncSftp.create
    rcases hd : driveWith (s.create_fut p3) sc3 w3 with ⟨ret, wf, n⟩
    rw [hd] at h3
    simp only at h3
    subst h3
    rfl
  · unfold AsyncSftp.opendir
    rcases hd : driveWith (s.opendir_fut p4) sc4 w4 with ⟨ret, wf, n⟩
    rw [hd] at h4
    simp only at h4
    subst h4
    rfl

/-- The hypotheses and conclusion of the C9 theorem hold at a concrete
rejected open on a concrete session adapter. -/
theorem open_family_error_no_adapter_witness :
    ((driveWith (sErr.open_mode_fut "a" 0 0 OpenType.file) schedRW ()).1 =
        some (Except.error eDenied) ∧
      (driveWith (sErr.open_fut "a") schedRW ()).1 =
        some (Except.error eDenied) ∧
      (driveWith (sErr.create_fut "a") schedRW ()).1 =
        some (Except.error eDenied) ∧
      (driveWith (sErr.opendir_fut "a") schedRW ()).1 =
        some (Except.error eDenied)) ∧
    (sErr.open_mode "a" 0 0 OpenType.file schedRW ()).1 =
      some (Except.error eDenied) ∧
    (sErr.open_ "a" schedRW ()).1 = some (Except.error eDenied) ∧
    (sErr.create "a" schedRW ()).1 = some (Except.error eDenied) ∧
    (sErr.opendir "a" schedRW ()).1 = some (Except.error eDenied) :=
  ⟨⟨rfl, rfl, rfl, rfl⟩,
   open_family_error_no_adapter sErr "a" "a" "a" "a" 0 0 OpenType.file
     schedRW schedRW schedRW schedRW () () () ()
     eDenied eDenied eDenied eDenied rfl rfl rfl rfl⟩

/-- C8: readdir materializes one directory's entries in a single blocking
call: a ready poll records exactly one readdir call and resolves, on
success, to the complete finite listing of (entry-name, Attributes Record)
pairs that this one call produced. -/
theorem readdir_single_call_full_listing {S : Type} (o : SftpOracle)
    (a : Arc (Async S)) (p : Path) :
    (∀ (cr : Bool) (w : Log),
      pollFut ((logSession o a).readdir p) { canRead := cr, canWrite := false }
        w = (Poll.pending, w)) ∧
    (∀ (cr : Bool) (w : Log),
      pollFut ((logSession o a).readdir p) { canRead := cr, canWrite := true }
        w =
        ((match o.readdirR w with
          | Except.ok l => Poll.ready (Except.ok l)
          | Except.error Ssh2Error.eagain => Poll.pending
          | Except.error e => Poll.ready (Except.error (ssh2IntoIo e))),
         CallEv.readdirCall p :: w)) := by
  refine ⟨fun _ _ => rfl, fun cr w => ?_⟩
  rcases hr : o.readdirR w with e | l
  · rcases e with _ | ⟨c, m⟩ <;>
      simp [pollFut, AsyncSftp.readdir, Async.write_with, logSession, logSftp,
            AsyncSftp.from_parts, convRes, Except.mapError, ssh2IntoIo,
            dirReady, hr]
  · simp [pollFut, AsyncSftp.readdir, Async.write_with, logSession, logSftp,
          AsyncSftp.from_parts, convRes, Except.mapError, ssh2IntoIo,
          dirReady, hr]

end AsyncSsh2
